import Mathlib

/-!
# SmartBilling — verification of the billing core and app state machine

Shallow embedding of the SmartBilling sources:

* `src/utils/billingLogic.ts` — `evaluateExpression` (recursive-descent
  arithmetic evaluator), `calculateParcelAmount` (tiered slab pricing) and
  `calculateRow` (row derivation).
* `src/App.tsx` — import pipeline (`handleJsonFile`, `handleBulkJsonImport`,
  `resolveConflict`) and the chunked-capture state machine
  (`startChunkSession`, `handleChunkCapture`, `finishCurrentChunk`,
  `processChunkQueue`).
* `src/unnamed/part_000` — `parseBillingDocument` (tiered model fallback).

Modelling conventions:

* JavaScript numbers are modelled as exact rationals (`ℚ`); the sources use
  them as real-valued rates and weights.
* `crypto.randomUUID()` is modelled as drawing from a fresh-identity counter
  (`nextId`) threaded through the state; `Date.now()` and the locale date /
  time strings are modelled as a read of an ambient clock field (`now`).
* JavaScript `x || d` on numbers and strings is falsy-aware (`0`, `""` and
  `undefined` all select the default); the helpers `jsOrNum` / `jsOrStr`
  mirror this exactly.
* Recursion that the JS engine runs on the call stack (the recursive-descent
  parser, the queue drain) is written with an explicit fuel parameter that
  dominates the JS recursion depth, which is bounded by the token count
  (resp. the queue length).
* The recognition service is an external collaborator; its per-call outcome
  is supplied as an oracle `String → List ChunkImage → Option ParseResult`
  over the model tier name and the submitted page images (`none` exactly
  when that tier's call throws).
* The queue drain's `setTimeout(() => processChunkQueue(), 500)` re-invokes
  the closure of the render that started the drain, so every re-invocation
  reads `chunkSession` (the entry guard, `pendingChunks[0]`, `aiMode`,
  `folderId`, the recursion guard) and `globalConfig` from the pre-drain
  snapshot; only the functional updaters passed to `saveChunkSession` and
  `setHistory` see fresh state.  The embedding threads the snapshot as an
  explicit parameter, distinct from the live state.
-/

/-- JavaScript `x || d` for an optional number: `undefined` and `0` are falsy. -/
def jsOrNum (x : Option ℚ) (d : ℚ) : ℚ :=
  match x with
  | none => d
  | some v => if v = 0 then d else v

/-- JavaScript `x || d` for an optional string: `undefined` and `""` are falsy. -/
def jsOrStr (x : Option String) (d : String) : String :=
  match x with
  | none => d
  | some v => if v = "" then d else v

/-- JavaScript `x || d` for a (present) string: `""` is falsy. -/
def jsOrStr1 (x d : String) : String :=
  if x = "" then d else x

/-- JavaScript `x || d` for an optional boolean. -/
def jsOrBool (x : Option Bool) (d : Bool) : Bool :=
  match x with
  | none => d
  | some v => v || d

/-- Rendering of a JS number inside a template literal.  Integral values
render as their decimal integer representation, exactly as JS does; for
non-integral values JS prints a decimal expansion, abstracted here as
`num/den` (every statement proved below only renders integral values). -/
def ratStr (q : ℚ) : String :=
  if q.den = 1 then toString q.num else toString q.num ++ "/" ++ toString q.den

/-! ## Data model of `billingLogic.ts` (`src/unnamed/part_000`, second half) -/

inductive ItemType where
  | PARCEL
  | DOCUMENT
deriving DecidableEq, Repr

structure BillingConfig where
  parcelSlab1Rate : ℚ
  parcelSlab2Rate : ℚ
  parcelSlab3Rate : ℚ
  documentRate : ℚ
deriving DecidableEq, Repr

structure BillingRow where
  id : ℕ
  slNo : ℚ
  serialNo : String
  description : String
  type : ItemType
  weight : ℚ
  rate : ℚ
  isManualRate : Bool
  amount : ℚ
  breakdown : String
deriving DecidableEq, Repr

/-- The argument type of `calculateRow`:
`Omit<BillingRow, 'rate' | 'amount' | 'breakdown'> & { rate?, isManualRate? }`. -/
structure RowInput where
  id : ℕ
  slNo : ℚ
  serialNo : String
  description : String
  type : ItemType
  weight : ℚ
  rate : Option ℚ
  isManualRate : Option Bool
deriving DecidableEq, Repr

/-- Re-submitting a computed `BillingRow` to `calculateRow` (all optional
fields are present on a computed row). -/
def BillingRow.toInput (r : BillingRow) : RowInput :=
  { id := r.id, slNo := r.slNo, serialNo := r.serialNo,
    description := r.description, type := r.type, weight := r.weight,
    rate := some r.rate, isManualRate := some r.isManualRate }

/-- The source line `const roundedWeight = weight > 0 ? Math.ceil(weight) : 0;`. -/
def roundedWeightFn (weight : ℚ) : ℕ :=
  if weight > 0 then (Int.ceil weight).toNat else 0

structure ParcelCalc where
  total : ℚ
  breakdown : String
  s1w : ℕ
  s2w : ℕ
  s3w : ℕ
deriving DecidableEq, Repr

/-- Embedding of `calculateParcelAmount` (billingLogic.ts lines 201-246), written in
single-assignment form: each `if` of the source guards the corresponding
updates of `total`, `components` and `remaining`. -/
def calculateParcelAmount (weight : ℚ) (config : BillingConfig) : ParcelCalc :=
  let roundedWeight := roundedWeightFn weight
  -- Slab 1: First 10kg
  let s1w : ℕ := min roundedWeight 10
  let total1 : ℚ := if s1w > 0 then s1w * config.parcelSlab1Rate else 0
  let comps1 : List String :=
    if s1w > 0 then [toString s1w ++ "kg*" ++ ratStr config.parcelSlab1Rate] else []
  let remaining1 : ℕ := if s1w > 0 then roundedWeight - s1w else roundedWeight
  -- Slab 2: Next 100kg
  let s2w : ℕ := if remaining1 > 0 then min remaining1 100 else 0
  let total2 : ℚ := if remaining1 > 0 then total1 + s2w * config.parcelSlab2Rate else total1
  let comps2 : List String :=
    if remaining1 > 0 then comps1 ++ [toString s2w ++ "kg*" ++ ratStr config.parcelSlab2Rate]
    else comps1
  let remaining2 : ℕ := if remaining1 > 0 then remaining1 - s2w else remaining1
  -- Slab 3: Remainder above 110kg
  let s3w : ℕ := if remaining2 > 0 then remaining2 else 0
  let total3 : ℚ := if remaining2 > 0 then total2 + s3w * config.parcelSlab3Rate else total2
  let comps3 : List String :=
    if remaining2 > 0 then comps2 ++ [toString s3w ++ "kg*" ++ ratStr config.parcelSlab3Rate]
    else comps2
  { total := total3
    breakdown := jsOrStr1 (String.intercalate " + " comps3) "₹0.00"
    s1w := s1w, s2w := s2w, s3w := s3w }

/-- Embedding of `calculateRow` (billingLogic.ts lines 248-281). -/
def calculateRow (row : RowInput) (config : BillingConfig) : BillingRow :=
  let rate0 : ℚ := jsOrNum row.rate 0
  let isManualRate : Bool := jsOrBool row.isManualRate false
  let roundedWeight := roundedWeightFn row.weight
  let (rate, amount, breakdown) :=
    if row.type = ItemType.DOCUMENT then
      let rate := if !isManualRate then config.documentRate else rate0
      (rate, rate, "Flat: ₹" ++ ratStr rate)
    else
      -- the source binds this to a local named after the calculation; that
      -- word is a keyword here, so the local is named calcP
      let calcP := calculateParcelAmount row.weight config
      if !isManualRate then
        let rate : ℚ :=
          if roundedWeight > 0 then calcP.total / roundedWeight else config.parcelSlab1Rate
        (rate, calcP.total, calcP.breakdown)
      else
        (rate0, rate0 * roundedWeight,
          toString roundedWeight ++ "kg * " ++ ratStr rate0 ++ " (Manual)")
  { id := row.id, slNo := row.slNo, serialNo := row.serialNo,
    description := row.description, type := row.type, weight := row.weight,
    rate := rate, isManualRate := isManualRate, amount := amount,
    breakdown := breakdown }

/-! ## `evaluateExpression` (billingLogic.ts lines 119-191)

The source strips whitespace, tokenizes with the regex
`(\d+(\.\d+)?|[-+*\/()])` (characters matching neither alternative are
skipped), and runs a recursive-descent parser:
`Expression = Term ((+|-) Term)*`, `Term = Factor ((*|/) Factor)*`,
`Factor = Number | ( Expression )`.  Division by zero sets the accumulated
term to `0`.  A factor that is an operator or `)` token is `parseFloat`-ed
to `NaN` and yields `0` (consuming the token); a factor past the end of the
token list yields `0` without consuming. -/

inductive Token where
  | num (q : ℚ)
  | plus
  | minus
  | times
  | div
  | lparen
  | rparen
deriving DecidableEq, Repr

/-- Decimal value of a digit run. -/
def digitsToNat (ds : List Char) : ℕ :=
  ds.foldl (fun acc c => acc * 10 + (c.toNat - 48)) 0

/-- Tokenizer for the regex `(\d+(\.\d+)?|[-+*\/()])` with global matching:
maximal digit runs (optionally followed by `.` and a further digit run) form
number tokens, the six operator characters form singleton tokens, all other
characters are skipped.  `parseFloat` of such a numeral is modelled exactly
as a rational.  Fuel dominates the input length, so it never runs out. -/
def tokenize : ℕ → List Char → List Token
  | 0, _ => []
  | _, [] => []
  | fuel + 1, c :: cs =>
    if c.isDigit then
      let intPart := (c :: cs).takeWhile Char.isDigit
      let rest1 := (c :: cs).dropWhile Char.isDigit
      match rest1 with
      | '.' :: c2 :: cs2 =>
        if c2.isDigit then
          let fracPart := (c2 :: cs2).takeWhile Char.isDigit
          let rest2 := (c2 :: cs2).dropWhile Char.isDigit
          Token.num ((digitsToNat intPart : ℚ) +
            (digitsToNat fracPart : ℚ) / (10 ^ fracPart.length : ℚ)) :: tokenize fuel rest2
        else
          Token.num (digitsToNat intPart) :: tokenize fuel rest1
      | _ => Token.num (digitsToNat intPart) :: tokenize fuel rest1
    else if c = '+' then Token.plus :: tokenize fuel cs
    else if c = '-' then Token.minus :: tokenize fuel cs
    else if c = '*' then Token.times :: tokenize fuel cs
    else if c = '/' then Token.div :: tokenize fuel cs
    else if c = '(' then Token.lparen :: tokenize fuel cs
    else if c = ')' then Token.rparen :: tokenize fuel cs
    else tokenize fuel cs

mutual

/-- Embedding of `parseExpression`: a term followed by the `(+|-) Term` loop. -/
def parseExpression : ℕ → List Token → ℕ → ℚ × ℕ
  | 0, _, pos => (0, pos)
  | fuel + 1, ts, pos =>
    let r := parseTerm fuel ts pos
    parseExpressionLoop fuel ts r.1 r.2

/-- The `while` loop of `parseExpression`. -/
def parseExpressionLoop : ℕ → List Token → ℚ → ℕ → ℚ × ℕ
  | 0, _, lhs, pos => (lhs, pos)
  | fuel + 1, ts, lhs, pos =>
    match ts.get? pos with
    | some Token.plus =>
      let r := parseTerm fuel ts (pos + 1)
      parseExpressionLoop fuel ts (lhs + r.1) r.2
    | some Token.minus =>
      let r := parseTerm fuel ts (pos + 1)
      parseExpressionLoop fuel ts (lhs - r.1) r.2
    | _ => (lhs, pos)

/-- Embedding of `parseTerm`: a factor followed by the `(*|/) Factor` loop. -/
def parseTerm : ℕ → List Token → ℕ → ℚ × ℕ
  | 0, _, pos => (0, pos)
  | fuel + 1, ts, pos =>
    let r := parseFactor fuel ts pos
    parseTermLoop fuel ts r.1 r.2

/-- The `while` loop of `parseTerm`; division by zero sets the accumulator
to `0` (the source's `else if (rhs === 0) lhs = 0`). -/
def parseTermLoop : ℕ → List Token → ℚ → ℕ → ℚ × ℕ
  | 0, _, lhs, pos => (lhs, pos)
  | fuel + 1, ts, lhs, pos =>
    match ts.get? pos with
    | some Token.times =>
      let r := parseFactor fuel ts (pos + 1)
      parseTermLoop fuel ts (lhs * r.1) r.2
    | some Token.div =>
      let r := parseFactor fuel ts (pos + 1)
      parseTermLoop fuel ts (if r.1 = 0 then 0 else lhs / r.1) r.2
    | _ => (lhs, pos)

/-- Embedding of `parseFactor`: number, parenthesized expression (a missing `)` is
tolerated), or `0` for anything else. -/
def parseFactor : ℕ → List Token → ℕ → ℚ × ℕ
  | 0, _, pos => (0, pos)
  | fuel + 1, ts, pos =>
    match ts.get? pos with
    | none => (0, pos)
    | some Token.lparen =>
      let r := parseExpression fuel ts (pos + 1)
      match ts.get? r.2 with
      | some Token.rparen => (r.1, r.2 + 1)
      | _ => (r.1, r.2)
    | some (Token.num q) => (q, pos + 1)
    | some _ => (0, pos + 1)

end

/-- Embedding of `evaluateExpression` (billingLogic.ts lines 119-191).  Total by
construction: the parser's fuel (three units per token plus slack) dominates
the JS call depth, which is bounded by the token count, and every arithmetic
step is total on `ℚ` (division by zero is guarded by the source itself). -/
def evaluateExpression (input : String) : ℚ :=
  let expr := input.toList.filter (fun c => !c.isWhitespace)
  if expr.isEmpty then 0
  else
    let tokens := tokenize (expr.length + 1) expr
    if tokens.isEmpty then 0
    else (parseExpression (3 * tokens.length + 3) tokens 0).1

/-! ## Data model of `App.tsx` and `src/unnamed/part_000`

Identity and time are modelled as counters (see the header).  The locale
date / time strings of the source are abstracted as functions of the
ambient clock; no verified statement inspects their contents. -/

/-- Abstraction of `new Date().toLocaleDateString()`. -/
def toLocaleDateString (now : ℕ) : String := "date-" ++ toString now

/-- Abstraction of `new Date().toLocaleTimeString()`. -/
def toLocaleTimeString (now : ℕ) : String := "time-" ++ toString now

/-- One captured page image (base64 payload and mime type). -/
structure ChunkImage where
  data : String
  mimeType : String
deriving DecidableEq, Repr

/-- One queued chunk: the image group of a single not-yet-recognized manifest. -/
structure Chunk where
  id : ℕ
  images : List ChunkImage
deriving DecidableEq, Repr

structure ChunkSession where
  id : ℕ
  folderId : ℕ
  folderName : String
  aiMode : String
  pendingChunks : List Chunk
  currentChunk : List ChunkImage
  totalManifestsCaptured : ℕ
  processedCount : ℕ
  isProcessing : Bool
  statusLog : String
deriving DecidableEq, Repr

structure Folder where
  id : ℕ
  name : String
  createdAt : ℕ
deriving DecidableEq, Repr

structure ManifestMetadata where
  manifestNo : String
  manifestDate : String
deriving DecidableEq, Repr

structure ManifestHistory where
  id : ℕ
  manifestNo : String
  manifestDate : String
  rows : List BillingRow
  config : BillingConfig
  totalAmount : ℚ
  itemCount : ℕ
  createdAt : ℕ
  folderId : Option ℕ
deriving DecidableEq, Repr

/-- The transient pairing held in the `importConflict` state. -/
structure ImportConflict where
  existing : ManifestHistory
  newCandidate : ManifestHistory
deriving DecidableEq, Repr

structure BulkImportStatus where
  fileName : String
  status : String
  message : String
deriving DecidableEq, Repr

/-- One structured line item returned by the recognition service. -/
structure RawItem where
  slNo : Option ℚ
  serialNo : Option String
  description : Option String
  type : Option String
  weight : Option ℚ
deriving DecidableEq, Repr

/-- The structured payload returned by `parseBillingDocument`. -/
structure ParseResult where
  manifestNo : Option String
  manifestDate : Option String
  items : Option (List RawItem)
deriving DecidableEq, Repr

/-- A parsed JSON import payload (`{manifestNo, manifestDate, rows, config?}`);
a `none` field is an absent key. -/
structure JsonPayload where
  manifestNo : Option String
  manifestDate : Option String
  rows : Option (List RowInput)
  config : Option BillingConfig
deriving DecidableEq, Repr

/-- The `App` component state touched by the verified handlers.  `nextId` is
the fresh-identity supply and `now` the ambient clock. -/
structure AppState where
  history : List ManifestHistory
  recycleBin : List ManifestHistory
  folders : List Folder
  chunkSession : Option ChunkSession
  importConflict : Option ImportConflict
  activeManifestId : Option ℕ
  rows : List BillingRow
  manifestMeta : ManifestMetadata
  config : BillingConfig
  globalConfig : BillingConfig
  currentFolderId : Option ℕ
  chunkAiMode : String
  view : String
  statusMsg : String
  isUploadModalOpen : Bool
  nextId : ℕ
  now : ℕ
deriving DecidableEq, Repr

/-- The updater call form `saveChunkSession(prev => prev ? f(prev) : null)`. -/
def updateSession (s : AppState) (f : ChunkSession → ChunkSession) : AppState :=
  match s.chunkSession with
  | none => s
  | some sess => { s with chunkSession := some (f sess) }


/-! ## `parseBillingDocument` (`src/unnamed/part_000` lines 40-152) -/

def MODELS_FAST : String := "gemini-3-flash-preview"
def MODELS_ACCURATE : String := "gemini-3-pro-preview"
def MODELS_FALLBACK : String := "gemini-flash-latest"

/-- Embedding of `parseBillingDocument`: tiered model fallback.  `call` is
the outcome of `callModel` for a model tier applied to the submitted page
images during this invocation (`none` = the call threw); a `none` overall
result is the function itself throwing after the last tier failed.  Hybrid
mode: accurate, then fast, then stable fallback; default mode: fast, then
stable fallback. -/
def parseBillingDocument (call : String → List ChunkImage → Option ParseResult)
    (inputs : List ChunkImage) (useHybridMode : Bool) : Option ParseResult :=
  if useHybridMode then
    match call MODELS_ACCURATE inputs with
    | some response => some response
    | none =>
      match call MODELS_FAST inputs with
      | some response => some response
      | none => call MODELS_FALLBACK inputs
  else
    match call MODELS_FAST inputs with
    | some response => some response
    | none => call MODELS_FALLBACK inputs

/-! ## Chunk session handlers (`App.tsx` lines 991-1146) -/

/-- Embedding of `startChunkSession` (App.tsx lines 991-1015). -/
def startChunkSession (s : AppState) : AppState :=
  let folderName :=
    "Session_" ++ toLocaleDateString s.now ++ "_" ++ toLocaleTimeString s.now
  let newFolderId := s.nextId
  let newFolder : Folder := { id := newFolderId, name := folderName, createdAt := s.now }
  let newSession : ChunkSession :=
    { id := s.nextId + 1
      folderId := newFolderId
      folderName := folderName
      aiMode := s.chunkAiMode
      pendingChunks := []
      currentChunk := []
      totalManifestsCaptured := 0
      processedCount := 0
      isProcessing := false
      statusLog := "Ready to capture." }
  { s with folders := s.folders ++ [newFolder]
           nextId := s.nextId + 2
           chunkSession := some newSession }

/-- Embedding of `finishCurrentChunk` (App.tsx lines 1039-1052). -/
def finishCurrentChunk (s : AppState) (overrideChunk : Option (List ChunkImage)) : AppState :=
  match s.chunkSession with
  | none => s
  | some sess =>
    let chunkToSave := overrideChunk.getD sess.currentChunk
    if chunkToSave.length = 0 then s
    else
      let newPending := sess.pendingChunks ++ [{ id := s.nextId, images := chunkToSave }]
      { s with nextId := s.nextId + 1
               chunkSession := some
                 { sess with pendingChunks := newPending
                             currentChunk := []
                             totalManifestsCaptured := sess.totalManifestsCaptured + 1
                             statusLog := "Manifest captured. Ready for next." } }

/-- Embedding of `handleChunkCapture` (App.tsx lines 1017-1037); `img` is the freshly
base64-converted page. -/
def handleChunkCapture (s : AppState) (img : ChunkImage) : AppState :=
  match s.chunkSession with
  | none => s
  | some sess =>
    let updatedChunk := sess.currentChunk ++ [img]
    if updatedChunk.length ≥ 5 then
      finishCurrentChunk s (some updatedChunk)
    else
      let sess1 :=
        { sess with currentChunk := updatedChunk
                    statusLog := "Page " ++ toString updatedChunk.length ++ " captured." }
      { s with chunkSession := some sess1 }

/-- Embedding of `processChunkQueue` (App.tsx lines 1054-1146).

The source function is a closure of the render in which the drain was
started: `chunkSession` in its body is that render's `useState` value, and
the recursive `setTimeout(() => processChunkQueue(), 500)` re-enters the
same closure.  Hence the entry guard (line 1055), `chunkToProcess =
chunkSession.pendingChunks[0]` (line 1060), `useHybrid`/`useAuto` (lines
1063-1064), the manifest's `folderId` (line 1106), `globalConfig` (lines
1094, 1102) and `remainingChunksLength` (line 1134) are all read from the
pre-drain snapshot on every re-invocation — the stale-closure defect the
spec flags — while the functional updaters passed to `saveChunkSession`
and `setHistory` (lines 1057, 1072, 1075, 1080, 1110, 1117, 1139, 1144)
read fresh state.  The embedding therefore carries the snapshot `snap`
unchanged through the recursion and threads the live state `s` separately.

`oracle k` is the per-tier, per-submitted-images outcome of the
recognition service during the `k`-th invocation.  The fuel argument cuts
the re-invocation chain to a finite prefix; the verified statements only
run drains that terminate by a recognition failure before the fuel is
spent (on an all-success run the stale recursion guard of the source never
turns false, so the source would keep re-invoking itself). -/
def processChunkQueue (oracle : ℕ → String → List ChunkImage → Option ParseResult)
    (snap : AppState) : ℕ → ℕ → AppState → AppState
  | 0, _, s => s
  | fuel + 1, k, s =>
    match snap.chunkSession with
    | none => s
    | some sess =>
      match sess.pendingChunks with
      | [] => s
      | chunkToProcess :: _ =>
        let s1 := updateSession s (fun p =>
          { p with isProcessing := true, statusLog := "Starting batch processing..." })
        let useHybrid := sess.aiMode == "hybrid"
        let useAuto := sess.aiMode == "auto"
        let usedMode := if useHybrid then "Hybrid" else "Default"
        let stateAndResult :=
          if useAuto then
            let sA := updateSession s1 (fun p =>
              { p with statusLog := "Processing Manifest " ++ toString (p.processedCount + 1)
                  ++ "... (Default Mode)" })
            match parseBillingDocument (oracle k) chunkToProcess.images false with
            | some r => (sA, some r)
            | none =>
              let sB := updateSession sA (fun p =>
                { p with statusLog := "Default failed. Retrying with Hybrid Mode..." })
              (sB, parseBillingDocument (oracle k) chunkToProcess.images true)
          else
            let sA := updateSession s1 (fun p =>
              { p with statusLog := "Processing Manifest " ++ toString (p.processedCount + 1)
                  ++ "... (" ++ usedMode ++ ")" })
            (sA, parseBillingDocument (oracle k) chunkToProcess.images useHybrid)
        let s2 := stateAndResult.1
        match stateAndResult.2 with
        | none =>
          updateSession s2 (fun p =>
            { p with isProcessing := false
                     statusLog := "Processing paused due to error. Resume when ready." })
        | some result =>
          let nid := s2.nextId
          let items := result.items.getD []
          let calculatedRows := items.enum.map (fun p =>
            calculateRow
              { id := nid + p.1
                slNo := jsOrNum p.2.slNo ((p.1 : ℚ) + 1)
                serialNo := jsOrStr p.2.serialNo ("AWB-" ++ toString (1000 + p.1))
                description := jsOrStr p.2.description "Item"
                type := if p.2.type == some "Document" then ItemType.DOCUMENT else ItemType.PARCEL
                weight := jsOrNum p.2.weight 0
                rate := none
                isManualRate := some false } snap.globalConfig)
          let newManifest : ManifestHistory :=
            { id := nid + items.length
              manifestNo := jsOrStr result.manifestNo ("AUTO-" ++ toString s2.now)
              manifestDate := jsOrStr result.manifestDate (toLocaleDateString s2.now)
              rows := calculatedRows
              config := snap.globalConfig
              totalAmount := calculatedRows.foldl (fun sum r => sum + r.amount) 0
              itemCount := calculatedRows.length
              createdAt := s2.now
              folderId := some sess.folderId }
          let s3 := { s2 with nextId := nid + items.length + 1
                              history := newManifest :: s2.history }
          let s4 := updateSession s3 (fun p =>
            { p with pendingChunks := p.pendingChunks.drop 1
                     processedCount := p.processedCount + 1
                     statusLog := "Manifest " ++ newManifest.manifestNo ++ " processed successfully." })
          let remainingChunksLength := sess.pendingChunks.length - 1
          if remainingChunksLength > 0 then
            processChunkQueue oracle snap fuel (k + 1) s4
          else
            updateSession s4 (fun p =>
              { p with isProcessing := false
                       statusLog := "All captured manifests processed." })

/-- Entry point of the drain: the snapshot is the live state at the moment
the drain is started (the render whose closure all re-invocations share),
and the fuel is that snapshot's queue length — enough for every drain that
terminates by a recognition failure within the queue's length. -/
def runProcessChunkQueue (oracle : ℕ → String → List ChunkImage → Option ParseResult)
    (s : AppState) : AppState :=
  let fuel := match s.chunkSession with
    | none => 0
    | some sess => sess.pendingChunks.length
  processChunkQueue oracle s fuel 0 s

/-! ## Import pipeline (`App.tsx` lines 560-876) -/

/-- Embedding of `autoSaveManifest` (App.tsx lines 771-788): persists a fresh-identity
manifest at the head of history and makes it active; returns the new id. -/
def autoSaveManifest (s : AppState) (newRows : List BillingRow)
    (meta : ManifestMetadata) (currentConfig : BillingConfig) : AppState × ℕ :=
  let newId := s.nextId
  let manifestData : ManifestHistory :=
    { id := newId
      manifestNo := meta.manifestNo
      manifestDate := meta.manifestDate
      rows := newRows
      config := currentConfig
      totalAmount := newRows.foldl (fun sum r => sum + r.amount) 0
      itemCount := newRows.length
      createdAt := s.now
      folderId := s.currentFolderId }
  ({ s with nextId := s.nextId + 1
            history := manifestData :: s.history
            activeManifestId := some newId }, newId)

/-- Embedding of `handleJsonFile` (App.tsx lines 834-876): the interactive single-payload
import.  The argument is the parsed file content; `none` is a JSON parse
failure (the `catch` branch). -/
def handleJsonFile (s : AppState) (content : Option JsonPayload) : AppState :=
  match content with
  | none => { s with statusMsg := "Failed to parse JSON manifest." }
  | some content =>
    match content.rows with
    | none => { s with statusMsg := "Failed to parse JSON manifest." }
    | some contentRows =>
      let meta : ManifestMetadata :=
        { manifestNo := jsOrStr content.manifestNo ("MF-" ++ toString s.now)
          manifestDate := jsOrStr content.manifestDate (toLocaleDateString s.now) }
      let configToUse := content.config.getD s.globalConfig
      let rowsWithCalculations := contentRows.map (fun r => calculateRow r configToUse)
      let newCandidate : ManifestHistory :=
        { id := s.nextId
          manifestNo := meta.manifestNo
          manifestDate := meta.manifestDate
          rows := rowsWithCalculations
          config := configToUse
          totalAmount := rowsWithCalculations.foldl (fun sum r => sum + r.amount) 0
          itemCount := rowsWithCalculations.length
          createdAt := s.now
          folderId := none }
      let s1 := { s with nextId := s.nextId + 1 }
      match s1.history.find? (fun h => h.manifestNo == newCandidate.manifestNo) with
      | some existing =>
        { s1 with importConflict := some { existing := existing, newCandidate := newCandidate } }
      | none =>
        let s2 := { s1 with rows := rowsWithCalculations
                            manifestMeta := meta
                            config := configToUse }
        let saved := autoSaveManifest s2 rowsWithCalculations meta configToUse
        { saved.1 with activeManifestId := some saved.2
                       view := "billing"
                       statusMsg := "JSON Manifest imported and saved to history."
                       isUploadModalOpen := false }

/-- Embedding of `executeBatchImport` (App.tsx lines 558-565): prepends the batch to the
persisted history. -/
def executeBatchImport (s : AppState) (manifests : List ManifestHistory) : AppState :=
  { s with history := manifests ++ s.history }

/-- The accumulator of the `handleBulkJsonImport` loop. -/
structure BulkAcc where
  newManifests : List ManifestHistory
  results : List BulkImportStatus
  nextId : ℕ
deriving DecidableEq, Repr

/-- The body of the `for` loop of `handleBulkJsonImport` (App.tsx lines
592-630) for the `i`-th file: a `(fileName, parsed payload)` pair, `none`
standing for a JSON parse error. -/
def bulkStep (history : List ManifestHistory) (globalConfig : BillingConfig)
    (targetId : Option ℕ) (now : ℕ) (acc : BulkAcc) (i : ℕ)
    (file : String × Option JsonPayload) : BulkAcc :=
  match file.2 with
  | none => { acc with results := acc.results ++ [⟨file.1, "error", "JSON Parse Error"⟩] }
  | some json =>
    let isDup := history.any (fun h => some h.manifestNo == json.manifestNo)
      || acc.newManifests.any (fun h => some h.manifestNo == json.manifestNo)
    if isDup then
      { acc with results := acc.results ++ [⟨file.1, "warning", "Duplicate skipped"⟩] }
    else
      match json.rows with
      | none => { acc with results := acc.results ++ [⟨file.1, "error", "Invalid structure"⟩] }
      | some jsonRows =>
        let configToUse := json.config.getD globalConfig
        let rowsWithCalculations := jsonRows.map (fun r => calculateRow r configToUse)
        let m : ManifestHistory :=
          { id := acc.nextId
            manifestNo := jsOrStr json.manifestNo ("IMP-" ++ toString now ++ "-" ++ toString i)
            manifestDate := jsOrStr json.manifestDate (toLocaleDateString now)
            rows := rowsWithCalculations
            config := configToUse
            totalAmount := rowsWithCalculations.foldl (fun sum r => sum + r.amount) 0
            itemCount := rowsWithCalculations.length
            createdAt := now
            folderId := targetId }
        { newManifests := acc.newManifests ++ [m]
          results := acc.results ++ [⟨file.1, "success", "Imported"⟩]
          nextId := acc.nextId + 1 }

/-- The `for` loop of `handleBulkJsonImport`, indexed from `i`. -/
def bulkLoop (history : List ManifestHistory) (globalConfig : BillingConfig)
    (targetId : Option ℕ) (now : ℕ) :
    BulkAcc → ℕ → List (String × Option JsonPayload) → BulkAcc
  | acc, _, [] => acc
  | acc, i, f :: fs =>
    bulkLoop history globalConfig targetId now
      (bulkStep history globalConfig targetId now acc i f) (i + 1) fs

/-- Embedding of `handleBulkJsonImport` (App.tsx lines 567-635).  `targetId` is the
destination folder resolved from the bulk-import folder selection (the
`'new'` branch creates it before the loop); over 30 files the handler
alerts and returns without touching anything.  Returns the new state and
the per-file status report. -/
def handleBulkJsonImport (s : AppState) (targetId : Option ℕ)
    (files : List (String × Option JsonPayload)) : AppState × List BulkImportStatus :=
  if files.length > 30 then (s, [])
  else
    let acc := bulkLoop s.history s.globalConfig targetId s.now
      { newManifests := [], results := [], nextId := s.nextId } 0 files
    (executeBatchImport { s with nextId := acc.nextId } acc.newManifests, acc.results)

/-- Embedding of `resolveConflict` (App.tsx lines 801-830). -/
def resolveConflict (s : AppState) (action : String) : AppState :=
  match s.importConflict with
  | none => s
  | some conflict =>
    let existing := conflict.existing
    let newCandidate := conflict.newCandidate
    let s1 :=
      if action == "discard" then
        { s with statusMsg := "Import cancelled by user." }
      else if action == "keep_both" then
        let candidateToSave := { newCandidate with id := s.nextId }
        { s with nextId := s.nextId + 1
                 history := candidateToSave :: s.history
                 activeManifestId := some candidateToSave.id
                 rows := candidateToSave.rows
                 manifestMeta := { manifestNo := candidateToSave.manifestNo
                                   manifestDate := candidateToSave.manifestDate }
                 config := candidateToSave.config
                 view := "billing"
                 statusMsg := "Imported as a new copy." }
      else if action == "override" then
        let newHistory := s.history.filter (fun h => h.id != existing.id)
        let candidateToSave := { newCandidate with id := s.nextId }
        { s with nextId := s.nextId + 1
                 history := candidateToSave :: newHistory
                 activeManifestId := some candidateToSave.id
                 rows := candidateToSave.rows
                 manifestMeta := { manifestNo := candidateToSave.manifestNo
                                   manifestDate := candidateToSave.manifestDate }
                 config := candidateToSave.config
                 view := "billing"
                 statusMsg := "Existing record overwritten." }
      else s
    { s1 with importConflict := none, isUploadModalOpen := false }

/-! ## Capture/close event sequences and concrete scenario instances -/

/-- A capture-phase transition: capturing one page or explicitly closing the
current chunk. -/
inductive ChunkEvent where
  | capture (img : ChunkImage)
  | closeChunk
deriving DecidableEq, Repr

/-- Running a sequence of capture/close transitions. -/
def runChunkEvents : AppState → List ChunkEvent → AppState
  | s, [] => s
  | s, ChunkEvent.capture img :: evs => runChunkEvents (handleChunkCapture s img) evs
  | s, ChunkEvent.closeChunk :: evs => runChunkEvents (finishCurrentChunk s none) evs

/-- The number of images currently accumulated in the in-progress chunk. -/
def currentChunkLen (s : AppState) : ℕ :=
  match s.chunkSession with
  | none => 0
  | some sess => sess.currentChunk.length

/-- The example configuration of the spec: slab rates 3 / 2 / 1, document
rate 5. -/
def cfgEx : BillingConfig := ⟨3, 2, 1, 5⟩

/-- A quiescent app state: empty repository, no session, no conflict. -/
def baseState : AppState :=
  { history := [], recycleBin := [], folders := [], chunkSession := none,
    importConflict := none, activeManifestId := none, rows := [],
    manifestMeta := ⟨"", ""⟩, config := cfgEx, globalConfig := cfgEx,
    currentFolderId := none, chunkAiMode := "default", view := "dashboard",
    statusMsg := "", isUploadModalOpen := false, nextId := 0, now := 100 }

/-- The `n`-th captured page image. -/
def img (n : ℕ) : ChunkImage := ⟨"img" ++ toString n, "image/jpeg"⟩

/-- A fresh chunk session on top of the quiescent state. -/
def sStarted : AppState := startChunkSession baseState

/-- The session after capturing and closing three one-page chunks. -/
def sQueued : AppState :=
  finishCurrentChunk (handleChunkCapture
    (finishCurrentChunk (handleChunkCapture
      (finishCurrentChunk (handleChunkCapture sStarted (img 1)) none)
      (img 2)) none)
    (img 3)) none

/-- Recognition oracle of the session-queue scenario: the first two
invocations succeed on the fast tier, the third fails on every tier.  A
successful result's manifest number records the invocation index and the
first submitted page image, so the stored manifests show which chunk each
recognition call actually consumed. -/
def oracleTwoGood : ℕ → String → List ChunkImage → Option ParseResult := fun k _ images =>
  if k < 2 then
    some ⟨some ("M" ++ toString (k + 1) ++ "-" ++ ((images.head?.map ChunkImage.data).getD "none")),
          some "d", some []⟩
  else none

/-- End state of the session-queue scenario. -/
def sDrained : AppState := runProcessChunkQueue oracleTwoGood sQueued

/-- Five pages captured into a fresh session with no explicit close. -/
def sFiveCaptured : AppState :=
  handleChunkCapture (handleChunkCapture (handleChunkCapture (handleChunkCapture
    (handleChunkCapture sStarted (img 1)) (img 2)) (img 3)) (img 4)) (img 5)

/-- A minimal stored manifest with a given identity and manifest number. -/
def mkManifest (i : ℕ) (no : String) : ManifestHistory :=
  ⟨i, no, "d", [], cfgEx, 0, 0, 0, none⟩

/-- An import payload with a given manifest number and an empty row list. -/
def mkPayload (no : String) : JsonPayload :=
  ⟨some no, some "2024-01-01", some [], none⟩

/-- Repository already holding manifest number `MF-1`. -/
def sWithHistory : AppState := { baseState with history := [mkManifest 50 "MF-1"] }

/-- Repository whose recycle bin (and only the bin) holds manifest number
`MF-2`. -/
def sWithBinned : AppState := { baseState with recycleBin := [mkManifest 51 "MF-2"] }

/-- A state holding a detected import conflict on manifest number `MF-1`,
with the existing entry stored in history. -/
def sWithConflict : AppState :=
  { baseState with history := [mkManifest 50 "MF-1"]
                   importConflict := some ⟨mkManifest 50 "MF-1", mkManifest 60 "MF-1"⟩ }

/-! ## Helper lemmas about the slab computation -/

theorem parcel_s1w_eq (w : ℚ) (cfg : BillingConfig) :
    (calculateParcelAmount w cfg).s1w = min (roundedWeightFn w) 10 := by
  simp only [calculateParcelAmount]

theorem parcel_s2w_eq (w : ℚ) (cfg : BillingConfig) :
    (calculateParcelAmount w cfg).s2w = min (roundedWeightFn w - 10) 100 := by
  simp only [calculateParcelAmount]
  split_ifs <;> omega

theorem parcel_s3w_eq (w : ℚ) (cfg : BillingConfig) :
    (calculateParcelAmount w cfg).s3w = roundedWeightFn w - 110 := by
  simp only [calculateParcelAmount]
  split_ifs <;> omega

theorem parcel_total_eq (w : ℚ) (cfg : BillingConfig) :
    (calculateParcelAmount w cfg).total =
      ((calculateParcelAmount w cfg).s1w : ℚ) * cfg.parcelSlab1Rate +
      ((calculateParcelAmount w cfg).s2w : ℚ) * cfg.parcelSlab2Rate +
      ((calculateParcelAmount w cfg).s3w : ℚ) * cfg.parcelSlab3Rate := by
  simp only [calculateParcelAmount]
  split_ifs
  all_goals try (exfalso; omega)
  all_goals try ring
  all_goals (have hz : min (roundedWeightFn w) 10 = 0 := by omega
             simp [hz])

theorem roundedWeightFn_eq_ceil (w : ℚ) : (roundedWeightFn w : ℤ) = ⌈max w 0⌉ := by
  unfold roundedWeightFn
  split_ifs with h
  · rw [max_eq_left (le_of_lt h)]
    exact Int.toNat_of_nonneg (by positivity)
  · rw [max_eq_right (le_of_not_lt h)]
    simp

theorem roundedWeightFn_mono {w1 w2 : ℚ} (h : w1 ≤ w2) :
    roundedWeightFn w1 ≤ roundedWeightFn w2 := by
  unfold roundedWeightFn
  split_ifs with h1 h2
  · exact Int.toNat_le_toNat (Int.ceil_le_ceil h)
  · exact absurd (lt_of_lt_of_le h1 h) h2
  · exact Nat.zero_le _
  · exact Nat.le_refl 0

/-- C1: `calculateParcelAmount` splits the billable weight
`ceil(max(w, 0))` into slab 1 `= min(billable, 10)`, slab 2
`= min(remaining, 100)` and slab 3 `=` all still-remaining weight, and its
total is the rate-weighted sum of the three slab weights. -/
theorem calculateParcelAmount_slab_decomposition (w : ℚ) (cfg : BillingConfig) :
    (((calculateParcelAmount w cfg).s1w + (calculateParcelAmount w cfg).s2w +
        (calculateParcelAmount w cfg).s3w : ℕ) : ℤ) = ⌈max w 0⌉ ∧
    (w ≤ 0 → (calculateParcelAmount w cfg).s1w + (calculateParcelAmount w cfg).s2w +
        (calculateParcelAmount w cfg).s3w = 0) ∧
    (calculateParcelAmount w cfg).total =
      ((calculateParcelAmount w cfg).s1w : ℚ) * cfg.parcelSlab1Rate +
      ((calculateParcelAmount w cfg).s2w : ℚ) * cfg.parcelSlab2Rate +
      ((calculateParcelAmount w cfg).s3w : ℚ) * cfg.parcelSlab3Rate ∧
    (calculateParcelAmount w cfg).s1w = min (roundedWeightFn w) 10 ∧
    (calculateParcelAmount w cfg).s2w =
      min (roundedWeightFn w - (calculateParcelAmount w cfg).s1w) 100 ∧
    (calculateParcelAmount w cfg).s3w =
      roundedWeightFn w - (calculateParcelAmount w cfg).s1w - (calculateParcelAmount w cfg).s2w := by
  have e1 := parcel_s1w_eq w cfg
  have e2 := parcel_s2w_eq w cfg
  have e3 := parcel_s3w_eq w cfg
  have esum : (calculateParcelAmount w cfg).s1w + (calculateParcelAmount w cfg).s2w +
      (calculateParcelAmount w cfg).s3w = roundedWeightFn w := by omega
  refine ⟨?_, ?_, parcel_total_eq w cfg, e1, by omega, by omega⟩
  · rw [esum, roundedWeightFn_eq_ceil]
  · intro hw
    have hz : roundedWeightFn w = 0 := by
      unfold roundedWeightFn
      rw [if_neg (not_lt.mpr hw)]
    omega

/-- Witness for C1 at the concrete weight `-3` (the inner implication is
discharged) and at the spec's `177` example. -/
theorem calculateParcelAmount_slab_decomposition_witness :
    ((calculateParcelAmount (-3) cfgEx).s1w + (calculateParcelAmount (-3) cfgEx).s2w +
        (calculateParcelAmount (-3) cfgEx).s3w = 0) ∧
    (((calculateParcelAmount 177 cfgEx).s1w + (calculateParcelAmount 177 cfgEx).s2w +
        (calculateParcelAmount 177 cfgEx).s3w : ℕ) : ℤ) = ⌈max (177 : ℚ) 0⌉ :=
  ⟨(calculateParcelAmount_slab_decomposition (-3) cfgEx).2.1 (by norm_num),
   (calculateParcelAmount_slab_decomposition 177 cfgEx).1⟩

/-- C9: for a configuration with non-negative rates, the parcel total is
monotonic non-decreasing in the weight. -/
theorem calculateParcelAmount_total_monotone (cfg : BillingConfig) (w1 w2 : ℚ)
    (h1 : 0 ≤ cfg.parcelSlab1Rate) (h2 : 0 ≤ cfg.parcelSlab2Rate)
    (h3 : 0 ≤ cfg.parcelSlab3Rate) (h4 : 0 ≤ cfg.documentRate) (hw : w1 ≤ w2) :
    (calculateParcelAmount w1 cfg).total ≤ (calculateParcelAmount w2 cfg).total := by
  rw [parcel_total_eq w1 cfg, parcel_total_eq w2 cfg]
  have hm := roundedWeightFn_mono hw
  have e11 := parcel_s1w_eq w1 cfg; have e21 := parcel_s1w_eq w2 cfg
  have e12 := parcel_s2w_eq w1 cfg; have e22 := parcel_s2w_eq w2 cfg
  have e13 := parcel_s3w_eq w1 cfg; have e23 := parcel_s3w_eq w2 cfg
  have a1 : (calculateParcelAmount w1 cfg).s1w ≤ (calculateParcelAmount w2 cfg).s1w := by omega
  have a2 : (calculateParcelAmount w1 cfg).s2w ≤ (calculateParcelAmount w2 cfg).s2w := by omega
  have a3 : (calculateParcelAmount w1 cfg).s3w ≤ (calculateParcelAmount w2 cfg).s3w := by omega
  have c1 : ((calculateParcelAmount w1 cfg).s1w : ℚ) ≤ (calculateParcelAmount w2 cfg).s1w :=
    Nat.cast_le.mpr a1
  have c2 : ((calculateParcelAmount w1 cfg).s2w : ℚ) ≤ (calculateParcelAmount w2 cfg).s2w :=
    Nat.cast_le.mpr a2
  have c3 : ((calculateParcelAmount w1 cfg).s3w : ℚ) ≤ (calculateParcelAmount w2 cfg).s3w :=
    Nat.cast_le.mpr a3
  exact add_le_add (add_le_add (mul_le_mul_of_nonneg_right c1 h1)
    (mul_le_mul_of_nonneg_right c2 h2)) (mul_le_mul_of_nonneg_right c3 h3)

/-- Witness for C9: the example configuration at weights `5 ≤ 177`. -/
theorem calculateParcelAmount_total_monotone_witness :
    (calculateParcelAmount 5 cfgEx).total ≤ (calculateParcelAmount 177 cfgEx).total :=
  calculateParcelAmount_total_monotone cfgEx 5 177 (by norm_num [cfgEx]) (by norm_num [cfgEx])
    (by norm_num [cfgEx]) (by norm_num [cfgEx]) (by norm_num)

theorem jsOrNum_some_zero (v : ℚ) : jsOrNum (some v) 0 = v := by
  unfold jsOrNum; split <;> simp_all

theorem jsOrBool_some_false (b : Bool) : jsOrBool (some b) false = b := by
  cases b <;> rfl

/-- C8: `calculateRow` is idempotent — re-deriving an already-derived row
(including the back-computed display rate of non-manual parcel rows)
changes nothing. -/
theorem calculateRow_idempotent (row : RowInput) (cfg : BillingConfig) :
    calculateRow (calculateRow row cfg).toInput cfg = calculateRow row cfg := by
  cases hty : row.type <;> cases hm : jsOrBool row.isManualRate false <;>
    simp [calculateRow, BillingRow.toInput, hty, hm, jsOrNum_some_zero, jsOrBool_some_false]

/-- C10: `calculateRow` only derives `rate`, `isManualRate`, `amount` and
`breakdown`; the fields `id`, `slNo`, `serialNo`, `description`, `type` and
`weight` of the input row are returned unchanged. -/
theorem calculateRow_frame (row : RowInput) (cfg : BillingConfig) :
    (calculateRow row cfg).id = row.id ∧
    (calculateRow row cfg).slNo = row.slNo ∧
    (calculateRow row cfg).serialNo = row.serialNo ∧
    (calculateRow row cfg).description = row.description ∧
    (calculateRow row cfg).type = row.type ∧
    (calculateRow row cfg).weight = row.weight := by
  simp [calculateRow]

/-- C5: the expression evaluator is a total function into the numbers (it
is a plain Lean function below, with division by zero yielding `0` for the
offending sub-term), and it meets the spec's round-trip examples; the
`"1+10/0"` case exhibits the zero-divisor sub-term inside a larger
expression. -/
theorem evaluateExpression_spec :
    evaluateExpression "12+15+30" = 57 ∧
    evaluateExpression "10/0" = 0 ∧
    evaluateExpression "" = 0 ∧
    evaluateExpression "2*(3+4)" = 14 ∧
    evaluateExpression "abc" = 0 ∧
    evaluateExpression "1+10/0" = 1 :=
  ⟨by with_unfolding_all rfl, by with_unfolding_all rfl, by with_unfolding_all rfl,
   by with_unfolding_all rfl, by with_unfolding_all rfl, by with_unfolding_all rfl⟩

theorem jsOrStr1_ne (x d : String) (h : x ≠ "") : jsOrStr1 x d = x := if_neg h
theorem go_data_ne_nil : ∀ (l : List String) (acc sep : String), acc.data ≠ [] →
    (String.intercalate.go acc sep l).data ≠ []
  | [], acc, sep, h => by simpa [String.intercalate.go] using h
  | a :: as, acc, sep, h => by
    rw [String.intercalate.go]
    exact go_data_ne_nil as (acc ++ sep ++ a) sep
      (by simp [String.data_append]; intro h1 _ _; exact h h1)

theorem intercalate_cons_ne_empty (s : String) (rest : List String) (h : s.data ≠ []) :
    String.intercalate " + " (s :: rest) ≠ "" := by
  have he : String.intercalate " + " (s :: rest) = String.intercalate.go s " + " rest := rfl
  rw [he]
  intro hcontra
  exact go_data_ne_nil rest s " + " h (congrArg String.data hcontra)

theorem kgterm_data_ne_nil (a c : String) : (a ++ "kg*" ++ c).data ≠ [] := by
  simp [String.data_append]

/-- Counterexample to C6 as stated: at weight `0` the total is `0`, yet the
breakdown is the placeholder `"₹0.00"`, not the empty string. -/
theorem calculateParcelAmount_breakdown_zero_counterexample :
    (calculateParcelAmount 0 cfgEx).total = 0 ∧
    (calculateParcelAmount 0 cfgEx).breakdown = "₹0.00" ∧
    (calculateParcelAmount 0 cfgEx).breakdown ≠ "" := by
  refine ⟨by with_unfolding_all rfl, by with_unfolding_all rfl, ?_⟩
  intro h
  have h2 : ("₹0.00" : String) = "" := by
    have hb : (calculateParcelAmount 0 cfgEx).breakdown = "₹0.00" := by with_unfolding_all rfl
    rw [← hb]; exact h
  exact absurd (congrArg String.data h2) (by simp)

/-- C6 (amended): the breakdown is the ordered concatenation of the terms
`"<weight>kg*<rate>"` of the slabs with non-zero slab weight, joined by
`" + "`, and it is the placeholder `"₹0.00"` — not the empty string — when
the billable weight is zero (no slab applies); on the spec's example
`(rates 3/2/1, weight 177)` the total is `297` and the breakdown is
`"10kg*3 + 100kg*2 + 67kg*1"`. -/
theorem calculateParcelAmount_breakdown_spec (w : ℚ) (cfg : BillingConfig) :
    ((calculateParcelAmount w cfg).breakdown =
      (if (calculateParcelAmount w cfg).s1w = 0 then "₹0.00"
       else String.intercalate " + "
         ((if (calculateParcelAmount w cfg).s1w ≠ 0 then
             [toString (calculateParcelAmount w cfg).s1w ++ "kg*" ++ ratStr cfg.parcelSlab1Rate]
           else []) ++
          (if (calculateParcelAmount w cfg).s2w ≠ 0 then
             [toString (calculateParcelAmount w cfg).s2w ++ "kg*" ++ ratStr cfg.parcelSlab2Rate]
           else []) ++
          (if (calculateParcelAmount w cfg).s3w ≠ 0 then
             [toString (calculateParcelAmount w cfg).s3w ++ "kg*" ++ ratStr cfg.parcelSlab3Rate]
           else [])))) ∧
    (calculateParcelAmount 177 cfgEx).total = 297 ∧
    (calculateParcelAmount 177 cfgEx).breakdown = "10kg*3 + 100kg*2 + 67kg*1" := by
  refine ⟨?_, by with_unfolding_all rfl, by with_unfolding_all rfl⟩
  simp only [calculateParcelAmount]
  split_ifs
  all_goals try (exfalso; omega)
  all_goals try simp only [List.singleton_append, List.append_nil, List.nil_append,
    List.cons_append]
  all_goals try rfl
  all_goals rw [jsOrStr1_ne _ _ (intercalate_cons_ne_empty _ _ (kgterm_data_ne_nil _ _))]

theorem capture_le4 (s : AppState) (i : ChunkImage) :
    currentChunkLen (handleChunkCapture s i) ≤ 4 := by
  cases hs : s.chunkSession with
  | none => simp [handleChunkCapture, hs, currentChunkLen]
  | some sess =>
    simp only [handleChunkCapture, hs]
    split_ifs with h5
    · simp only [finishCurrentChunk, hs]
      split_ifs with h0
      · simp at h0
      · simp [currentChunkLen]
    · simp only [currentChunkLen]
      simp at h5 ⊢
      omega

theorem close_le (s : AppState) (h : currentChunkLen s ≤ 4) :
    currentChunkLen (finishCurrentChunk s none) ≤ 4 := by
  cases hs : s.chunkSession with
  | none => simp [finishCurrentChunk, hs, currentChunkLen]
  | some sess =>
    simp only [finishCurrentChunk, hs, Option.getD]
    split_ifs with h0
    · simpa [currentChunkLen, hs] using h
    · simp [currentChunkLen]

theorem run_le4 : ∀ (evs : List ChunkEvent) (s : AppState), currentChunkLen s ≤ 4 →
    currentChunkLen (runChunkEvents s evs) ≤ 4
  | [], _s, h => h
  | ChunkEvent.capture i :: evs, s, _h =>
    run_le4 evs (handleChunkCapture s i) (capture_le4 s i)
  | ChunkEvent.closeChunk :: evs, s, h =>
    run_le4 evs (finishCurrentChunk s none) (close_le s h)

theorem startChunkSession_currentChunkLen (s : AppState) :
    currentChunkLen (startChunkSession s) = 0 := by
  simp [startChunkSession, currentChunkLen]

/-- C7: in an active session, a capture below the threshold appends exactly
one image to `currentChunk`; a capture that reaches 5 images auto-closes
the chunk (the 5 images move to `pendingChunks` under a fresh identity and
`currentChunk` is cleared); `currentChunk` never exceeds 5 images over any
capture/close sequence from a fresh session; capturing 5 images into a
fresh session yields one pending chunk and an empty current chunk; and
closing an empty current chunk is a no-op. -/
theorem chunk_capture_invariants :
    (∀ (s : AppState) (evs : List ChunkEvent),
       currentChunkLen (runChunkEvents (startChunkSession s) evs) ≤ 5) ∧
    (∀ (s : AppState) (sess : ChunkSession) (i : ChunkImage),
       s.chunkSession = some sess → sess.currentChunk.length + 1 < 5 →
       (handleChunkCapture s i).chunkSession.map ChunkSession.currentChunk =
         some (sess.currentChunk ++ [i])) ∧
    (∀ (s : AppState) (sess : ChunkSession) (i : ChunkImage),
       s.chunkSession = some sess → sess.currentChunk.length = 4 →
       (handleChunkCapture s i).chunkSession.map
           (fun c => (c.pendingChunks, c.currentChunk)) =
         some (sess.pendingChunks ++ [⟨s.nextId, sess.currentChunk ++ [i]⟩], [])) ∧
    (sFiveCaptured.chunkSession.map
        (fun c => (c.pendingChunks.length, c.currentChunk.length)) = some (1, 0)) ∧
    (∀ (s : AppState) (sess : ChunkSession),
       s.chunkSession = some sess → sess.currentChunk = [] →
       finishCurrentChunk s none = s) := by
  refine ⟨?_, ?_, ?_, by with_unfolding_all rfl, ?_⟩
  · intro s evs
    have h := run_le4 evs (startChunkSession s)
      (by rw [startChunkSession_currentChunkLen]; omega)
    omega
  · intro s sess i hs hlen
    simp only [handleChunkCapture, hs]
    rw [if_neg (by simp; omega)]
    simp
  · intro s sess i hs hlen
    simp only [handleChunkCapture, hs]
    rw [if_pos (by simp; omega)]
    simp only [finishCurrentChunk, hs, Option.getD]
    rw [if_neg (by simp)]
    simp
  · intro s sess hs hcur
    simp [finishCurrentChunk, hs, hcur]

/-- Witness for C7: the capture-append and empty-close parts applied to the
concrete fresh session. -/
theorem chunk_capture_invariants_witness :
    (handleChunkCapture sStarted (img 1)).chunkSession.map ChunkSession.currentChunk =
      some ([] ++ [img 1]) ∧
    finishCurrentChunk sStarted none = sStarted :=
  ⟨chunk_capture_invariants.2.1 sStarted
      ⟨1, 0, "Session_date-100_time-100", "default", [], [], 0, 0, false, "Ready to capture."⟩
      (img 1) (by with_unfolding_all rfl) (by norm_num),
   chunk_capture_invariants.2.2.2.2 sStarted
      ⟨1, 0, "Session_date-100_time-100", "default", [], [], 0, 0, false, "Ready to capture."⟩
      (by with_unfolding_all rfl) rfl⟩

/-- Counterexample to C2 as stated: in the concrete 3-chunk default-mode
scenario, the recognition oracle tags every successful result with the
first page image it was given.  Strict FIFO processing would make the
second stored manifest derive from chunk 2's page (`"M2-img2"`); instead
both stored manifests derive from chunk 1's page (the stale closure
re-reads `pendingChunks[0]` from the pre-drain snapshot on every
re-invocation), chunk 2 (`images [img 2]`) is popped without any
recognition call (no `img2`-derived manifest exists), and the chunk left
at the head is the never-attempted chunk 3 — not the chunk whose
recognition failed, which was chunk 1 on its third re-submission. -/
theorem processChunkQueue_fifo_counterexample :
    sQueued.chunkSession.map ChunkSession.pendingChunks =
      some [⟨2, [img 1]⟩, ⟨3, [img 2]⟩, ⟨4, [img 3]⟩] ∧
    sDrained.history.map ManifestHistory.manifestNo = ["M2-img1", "M1-img1"] ∧
    ¬ sDrained.history.map ManifestHistory.manifestNo = ["M2-img2", "M1-img1"] ∧
    (sDrained.history.filter
        (fun h => h.manifestNo == "M1-img2" || h.manifestNo == "M2-img2")).length = 0 ∧
    sDrained.chunkSession.map ChunkSession.pendingChunks = some [⟨4, [img 3]⟩] := by
  refine ⟨by with_unfolding_all rfl, by with_unfolding_all rfl, ?_,
    by with_unfolding_all rfl, by with_unfolding_all rfl⟩
  intro h
  have h1 : sDrained.history.map ManifestHistory.manifestNo = ["M2-img1", "M1-img1"] := by
    with_unfolding_all rfl
  rw [h1] at h
  have h2 : ("M2-img1" : String) = "M2-img2" := by injection h
  exact absurd (congrArg String.data h2) (by simp)

/-- C2 (amended): starting a session, closing three one-page chunks, and
draining the queue with strategy `default` where the first two recognition
calls succeed and the third fails on both of its tiers ends with
`processedCount = 2`, `pendingChunks.length = 1`, `isProcessing = false`,
the pause log entry, and exactly two new manifests in the session's folder;
but because each `setTimeout` re-invocation re-enters the stale render
closure and re-reads `pendingChunks[0]` from the pre-drain snapshot, every
recognition call is made on chunk 1: both stored manifests derive from
chunk 1's page, chunk 2 is popped without ever being recognized, and the
chunk left at the head is the never-attempted chunk 3, not the chunk whose
recognition failed. -/
theorem processChunkQueue_default_scenario :
    sQueued.chunkSession.map ChunkSession.pendingChunks =
      some [⟨2, [img 1]⟩, ⟨3, [img 2]⟩, ⟨4, [img 3]⟩] ∧
    sQueued.chunkSession.map ChunkSession.aiMode = some "default" ∧
    sDrained.chunkSession.map ChunkSession.processedCount = some 2 ∧
    sDrained.chunkSession.map ChunkSession.pendingChunks = some [⟨4, [img 3]⟩] ∧
    sDrained.chunkSession.map ChunkSession.isProcessing = some false ∧
    (sDrained.history.filter (fun h => h.folderId == some 0)).length = 2 ∧
    sDrained.history.length = sQueued.history.length + 2 ∧
    sDrained.history.map ManifestHistory.manifestNo = ["M2-img1", "M1-img1"] ∧
    sDrained.chunkSession.map ChunkSession.statusLog =
      some "Processing paused due to error. Resume when ready." :=
  ⟨by with_unfolding_all rfl, by with_unfolding_all rfl, by with_unfolding_all rfl,
   by with_unfolding_all rfl, by with_unfolding_all rfl, by with_unfolding_all rfl,
   by with_unfolding_all rfl, by with_unfolding_all rfl, by with_unfolding_all rfl⟩

theorem jsOrStr_some_ne (m d : String) (h : m ≠ "") : jsOrStr (some m) d = m := by
  simp [jsOrStr, h]

/-- C3: (i) an interactive import whose manifest number matches an existing
history entry sets exactly one `ImportConflict` (pairing that entry with the
candidate) and persists nothing; (ii) a bulk-import item whose manifest
number matches the repository or an earlier item of the same batch is
skipped with a `Duplicate skipped` report and adds nothing to the batch;
(iii) bulk import never touches the `importConflict` state;
(iv) a manifest number matching only a recycle-bin entry triggers no
conflict and is imported normally. -/
theorem import_dedup_spec :
    (∀ (s : AppState) (payload : JsonPayload) (rows0 : List RowInput)
       (ex : ManifestHistory) (m : String),
       payload.rows = some rows0 → payload.manifestNo = some m → m ≠ "" →
       s.history.find? (fun h => h.manifestNo == m) = some ex →
       (handleJsonFile s (some payload)).importConflict.map ImportConflict.existing =
           some ex ∧
       (handleJsonFile s (some payload)).importConflict.map
           (fun c => c.newCandidate.manifestNo) = some m ∧
       (handleJsonFile s (some payload)).history = s.history ∧
       (handleJsonFile s (some payload)).recycleBin = s.recycleBin ∧
       (handleJsonFile s (some payload)).activeManifestId = s.activeManifestId) ∧
    (∀ (history : List ManifestHistory) (gc : BillingConfig) (targetId : Option ℕ)
       (now : ℕ) (acc : BulkAcc) (i : ℕ) (name : String) (json : JsonPayload),
       (history.any (fun h => some h.manifestNo == json.manifestNo)
         || acc.newManifests.any (fun h => some h.manifestNo == json.manifestNo)) = true →
       bulkStep history gc targetId now acc i (name, some json) =
         { acc with results := acc.results ++ [⟨name, "warning", "Duplicate skipped"⟩] }) ∧
    (∀ (s : AppState) (targetId : Option ℕ) (files : List (String × Option JsonPayload)),
       (handleBulkJsonImport s targetId files).1.importConflict = s.importConflict) ∧
    (∀ (s : AppState) (payload : JsonPayload) (rows0 : List RowInput)
       (b : ManifestHistory) (m : String),
       payload.rows = some rows0 → payload.manifestNo = some m → m ≠ "" →
       s.history.find? (fun h => h.manifestNo == m) = none →
       b ∈ s.recycleBin → b.manifestNo = m →
       (handleJsonFile s (some payload)).importConflict = s.importConflict ∧
       (handleJsonFile s (some payload)).history.length = s.history.length + 1 ∧
       (handleJsonFile s (some payload)).history.head?.map ManifestHistory.manifestNo =
           some m ∧
       (handleJsonFile s (some payload)).activeManifestId = some (s.nextId + 1)) := by
  refine ⟨?_, ?_, ?_, ?_⟩
  · intro s payload rows0 ex m hrows hno hm hfind
    simp only [handleJsonFile, hrows, hno, jsOrStr_some_ne _ _ hm]
    rw [hfind]
    simp
  · intro history gc targetId now acc i name json hdup
    simp only [bulkStep, hdup]
    rfl
  · intro s targetId files
    unfold handleBulkJsonImport
    split_ifs <;> simp [executeBatchImport]
  · intro s payload rows0 b m hrows hno hm hfind _hb _hbno
    simp only [handleJsonFile, hrows, hno, jsOrStr_some_ne _ _ hm]
    rw [hfind]
    simp [autoSaveManifest]

/-- Witness for C3: concrete repository with `MF-1` stored, a conflicting
payload, a duplicate bulk item, and a bin-only `MF-2` match. -/
theorem import_dedup_spec_witness :
    (handleJsonFile sWithHistory (some (mkPayload "MF-1"))).history =
        sWithHistory.history ∧
    bulkStep [mkManifest 50 "MF-1"] cfgEx none 100 ⟨[], [], 0⟩ 0
        ("a.json", some (mkPayload "MF-1")) =
      { newManifests := [], results := [⟨"a.json", "warning", "Duplicate skipped"⟩],
        nextId := 0 } ∧
    (handleBulkJsonImport baseState none []).1.importConflict = baseState.importConflict ∧
    (handleJsonFile sWithBinned (some (mkPayload "MF-2"))).importConflict =
        sWithBinned.importConflict := by
  refine ⟨?_, ?_, ?_, ?_⟩
  · exact (import_dedup_spec.1 sWithHistory (mkPayload "MF-1") [] (mkManifest 50 "MF-1")
      "MF-1" rfl rfl (by simp) (by with_unfolding_all rfl)).2.2.1
  · have h := import_dedup_spec.2.1 [mkManifest 50 "MF-1"] cfgEx none 100 ⟨[], [], 0⟩ 0
      "a.json" (mkPayload "MF-1") (by with_unfolding_all rfl)
    simpa using h
  · exact import_dedup_spec.2.2.1 baseState none []
  · exact (import_dedup_spec.2.2.2 sWithBinned (mkPayload "MF-2") [] (mkManifest 51 "MF-2")
      "MF-2" rfl rfl (by simp) (by with_unfolding_all rfl) (by simp [sWithBinned])
      rfl).1

/-- C4: resolving an `ImportConflict`: `discard` leaves the repository
unchanged; `keep_both` persists the candidate under a fresh identity
alongside the existing entry; `override` removes the existing entry and
persists the candidate under a fresh identity (exactly one manifest left
when the existing entry was the only one); every outcome clears the
transient conflict, and the non-discard outcomes make the resulting
manifest the active session. -/
theorem resolveConflict_spec (s : AppState) (ex cand : ManifestHistory)
    (hconf : s.importConflict = some ⟨ex, cand⟩) :
    ((resolveConflict s "discard").history = s.history ∧
     (resolveConflict s "discard").recycleBin = s.recycleBin ∧
     (resolveConflict s "discard").rows = s.rows ∧
     (resolveConflict s "discard").activeManifestId = s.activeManifestId ∧
     (resolveConflict s "discard").importConflict = none) ∧
    ((resolveConflict s "keep_both").history = { cand with id := s.nextId } :: s.history ∧
     (resolveConflict s "keep_both").importConflict = none ∧
     (resolveConflict s "keep_both").activeManifestId = some s.nextId ∧
     (resolveConflict s "keep_both").rows = cand.rows ∧
     (resolveConflict s "keep_both").manifestMeta = ⟨cand.manifestNo, cand.manifestDate⟩ ∧
     (resolveConflict s "keep_both").config = cand.config ∧
     (resolveConflict s "keep_both").view = "billing") ∧
    ((resolveConflict s "override").history =
        { cand with id := s.nextId } :: s.history.filter (fun h => h.id != ex.id) ∧
     (resolveConflict s "override").importConflict = none ∧
     (resolveConflict s "override").activeManifestId = some s.nextId ∧
     (resolveConflict s "override").rows = cand.rows ∧
     (resolveConflict s "override").view = "billing") ∧
    (s.history = [ex] →
      (resolveConflict s "override").history = [{ cand with id := s.nextId }]) ∧
    (ex ∈ s.history → ex ∈ (resolveConflict s "keep_both").history) := by
  refine ⟨?_, ?_, ?_, ?_, ?_⟩
  · simp [resolveConflict, hconf]
  · simp [resolveConflict, hconf]
  · simp [resolveConflict, hconf]
  · intro hh
    simp [resolveConflict, hconf, hh]
  · intro hmem
    simp [resolveConflict, hconf, hmem]

/-- Witness for C4 at a concrete conflict state. -/
theorem resolveConflict_spec_witness :
    (resolveConflict sWithConflict "discard").history = sWithConflict.history ∧
    (resolveConflict sWithConflict "keep_both").importConflict = none ∧
    (resolveConflict sWithConflict "override").history =
      [{ mkManifest 60 "MF-1" with id := sWithConflict.nextId }] := by
  have h := resolveConflict_spec sWithConflict (mkManifest 50 "MF-1") (mkManifest 60 "MF-1")
    (by with_unfolding_all rfl)
  exact ⟨h.1.1, h.2.1.2.1, h.2.2.2.1 (by with_unfolding_all rfl)⟩
